import Mathlib

/-!
Shallow embedding of the mirrors service (src/utils.py) and proofs about it.

The embedding covers:
* the parsed-YAML document model and the Python exceptions the source raises
  (`Yaml`, `PyErr`);
* the config pipeline `process_main_config`, `get_mirror_config`,
  `get_mirrors_info` (utils.py lines 81-279);
* the availability prober `mirror_available` (utils.py lines 282-364),
  with the network modelled as an oracle from request URL to outcome and the
  probe additionally returning the list of URLs it requested, in order.

Machine-level notes: Python dicts are embedded as association lists in
insertion order (dict iteration order is insertion order); Python exceptions
are the `Except PyErr` monad; an out-of-range list index (`arches[0]` on an
empty list) is embedded as a `none` verdict, distinct from every normal
return value.
-/

namespace MirrorsService

/-- A parsed YAML value, as handed to `process_main_config` and
`process_mirror_config` by `load_yaml`. Mappings keep insertion order. -/
inductive Yaml where
  | s : String → Yaml
  | i : Int → Yaml
  | b : Bool → Yaml
  | null : Yaml
  | arr : List Yaml → Yaml
  | map : List (String × Yaml) → Yaml

/-- The Python exceptions that can escape the embedded fragments:
`KeyError` from a missing dict key, `jsonschema.ValidationError` raised by
`_process_repo_attributes`, and a type mismatch where the source would fail
on a value of an unexpected shape. -/
inductive PyErr where
  | keyError : String → PyErr
  | validationError : String → PyErr
  | typeError : String → PyErr
deriving DecidableEq, Repr

/-- Python subscript `d[k]` on a parsed mapping: the value at the first
matching key, or `KeyError` when the key is absent (or `d` is not a dict). -/
def getItem (d : Yaml) (k : String) : Except PyErr Yaml :=
  match d with
  | .map kvs =>
    match kvs.find? (fun p => p.1 = k) with
    | some p => .ok p.2
    | none => .error (.keyError k)
  | _ => .error (.typeError "subscript on a non-mapping value")

/-- Python `d.get(k, default)` on a parsed mapping. -/
def Yaml.getD (d : Yaml) (k : String) (dflt : Yaml) : Yaml :=
  match d with
  | .map kvs =>
    match kvs.find? (fun p => p.1 = k) with
    | some p => p.2
    | none => dflt
  | _ => dflt

/-- Read a YAML scalar as a string. The JSON schemas of the service (not
under src/; per the spec they constrain these fields to strings) guarantee
the conversion succeeds on every document the claims quantify over. -/
def asStr : Yaml → Except PyErr String
  | .s v => .ok v
  | _ => .error (.typeError "expected a string")

/-- Read a YAML sequence of strings. -/
def asStrList : Yaml → Except PyErr (List String)
  | .arr xs => xs.mapM asStr
  | _ => .error (.typeError "expected a list of strings")

/-- Read a YAML sequence. -/
def asList : Yaml → Except PyErr (List Yaml)
  | .arr xs => .ok xs
  | _ => .error (.typeError "expected a list")

/-- Python `str(...)` on a YAML scalar, as applied to each repo version at
utils.py line 123. Sequence/mapping renderings are placeholders: the schema
rules them out for the `versions` field. -/
def pyStr : Yaml → String
  | .s v => v
  | .i n => toString n
  | .b true => "True"
  | .b false => "False"
  | .null => "None"
  | .arr _ => "<list>"
  | .map _ => "<dict>"

/-- Modelled from the spec: data_models.py is not under src/. RepoDescriptor
per spec with fields `name`, `path` (templated with an architecture
placeholder), `arches` and `versions`. -/
structure RepoData where
  name : String
  path : String
  arches : List String
  versions : List String
deriving DecidableEq, Repr

/-- Modelled from the spec: data_models.py is not under src/. GlobalManifest
per spec; `allowed_outdate` and `duplicated_versions` are uninterpreted
pass-through values. -/
structure MainConfig where
  allowed_outdate : Yaml
  mirrors_dir : Yaml
  versions : List String
  duplicated_versions : Yaml
  arches : List String
  required_protocols : List String
  repos : List RepoData

/-- Modelled from the spec: data_models.py is not under src/.
MirrorDescriptor per spec; `urls` maps protocol type to base address in
insertion order; geolocation is omitted (no claim concerns it). The Lean
keyword forces guillemets around the `private` field name. -/
structure MirrorData where
  name : String
  update_frequency : String
  sponsor_name : String
  sponsor_url : String
  email : String
  urls : List (String × String)
  subnets : List String
  asn : Option Int
  cloud_type : String
  cloud_region : String
  «private» : Bool

/-- utils.py line 99: `", ".join(attributes)`. -/
def comma_join (xs : List String) : String := String.intercalate ", " xs

/-- utils.py lines 90-101 (`_process_repo_attributes` inside
`process_main_config`): raise ValidationError at the first repo attribute
absent from the given main list `attributes`, else return the attributes
unchanged. -/
def _process_repo_attributes (repo_name : String) (repo_attributes : List String)
    (attributes : List String) : Except PyErr (List String) :=
  match repo_attributes.find? (fun a => !(attributes.contains a)) with
  | some repo_arch =>
    .error (.validationError
      ("Attr \"" ++ repo_arch ++ "\" of repo \"" ++ repo_name ++
       "\" is absent in the main list of attrs \"" ++ comma_join attributes ++ "\""))
  | none => .ok repo_attributes

/-- utils.py lines 112-126: the body of the `repos` list comprehension,
building one RepoData. Note the faithful bug at line 125: the repo
`versions` are checked against the top-level arches list (passed here as
`attributes_arches`), not against the top-level versions list. -/
def build_repo (attributes_arches : List String) (repo : Yaml) :
    Except PyErr RepoData := do
  let name ← asStr (← getItem repo "name")
  let path ← asStr (← getItem repo "path")
  let repo_arches ← asStrList (repo.getD "arches" (.arr []))
  let arches ← _process_repo_attributes name repo_arches attributes_arches
  let repo_versions ← asList (repo.getD "versions" (.arr []))
  let versions ←
    _process_repo_attributes name (repo_versions.map pyStr) attributes_arches
  return { name := name, path := path, arches := arches, versions := versions }

/-- utils.py lines 103-129: the `MainConfig(...)` construction inside the
`try` block, with dict accesses in Python evaluation order. -/
def process_main_config_try (yaml_data : Yaml) : Except PyErr MainConfig := do
  let allowed_outdate ← getItem yaml_data "allowed_outdate"
  let mirrors_dir ← getItem yaml_data "mirrors_dir"
  let versions ← asStrList (← getItem yaml_data "versions")
  let duplicated_versions ← getItem yaml_data "duplicated_versions"
  let arches ← asStrList (← getItem yaml_data "arches")
  let required_protocols ← asStrList (← getItem yaml_data "required_protocols")
  let repos ← (← asList (← getItem yaml_data "repos")).mapM (build_repo arches)
  return { allowed_outdate := allowed_outdate, mirrors_dir := mirrors_dir,
           versions := versions, duplicated_versions := duplicated_versions,
           arches := arches, required_protocols := required_protocols,
           repos := repos }

/-- utils.py lines 81-131 (`process_main_config`): returns
`(config, None)` on success and `(None, message)` on ValidationError; every
other exception (in particular KeyError) propagates uncaught. -/
def process_main_config (yaml_data : Yaml) :
    Except PyErr (Option MainConfig × Option String) :=
  match process_main_config_try yaml_data with
  | .ok cfg => .ok (some cfg, none)
  | .error (.validationError msg) => .ok (none, some msg)
  | .error e => .error e

/-- utils.py lines 224-256 (`get_mirror_config`): validate the document
against the mirror schema, then — despite the declared return type
`Optional[MirrorData]` — run `process_main_config` on it (line 248).
The schema validator (`config_validation` closed over the
json_schemas/mirror_config.json file, which is not under src/) is passed as
a function; the document stands for the loaded YAML file. A `none` result
embeds the Python `return None` paths; errors are uncaught exceptions. -/
def get_mirror_config (config_validation : Yaml → Bool × Option String)
    (mirror_data : Yaml) : Except PyErr (Option MainConfig) := do
  let v := config_validation mirror_data
  if v.1 = false then
    return none
  else
    let r ← process_main_config mirror_data
    match r.2 with
    | some _ => return none
    | none => return r.1

/-- utils.py lines 259-279 (`get_mirrors_info`): iterate over the descriptor
files found under the mirrors directory (embedded as the list of their
parsed documents, in traversal order), collect every non-None
`get_mirror_config` result; an exception escaping `get_mirror_config`
propagates and aborts the whole traversal. -/
def get_mirrors_info (config_validation : Yaml → Bool × Option String)
    (docs : List Yaml) : Except PyErr (List MainConfig) := do
  let mut_result ← docs.foldlM (fun result doc => do
    let mirror_info ← get_mirror_config config_validation doc
    match mirror_info with
    | some cfg => pure (result ++ [cfg])
    | none => pure result) ([] : List MainConfig)
  return mut_result

/-- Modelled from the spec: a schema validator that accepts the document,
standing for any document that passes json_schemas/mirror_config.json
(the schema file is not under src/). -/
def accept_all_validation (_ : Yaml) : Bool × Option String := (true, none)

def c1_doc_valid : Yaml := .map
  [("allowed_outdate", .s "1 day"),
   ("mirrors_dir", .s "mirrors"),
   ("versions", .arr [.s "9"]),
   ("duplicated_versions", .map []),
   ("arches", .arr [.s "x86_64"]),
   ("required_protocols", .arr [.s "https"]),
   ("repos", .arr [.map
      [("name", .s "baseos"),
       ("path", .s "$basearch/baseos"),
       ("versions", .arr [.s "9"])]])]

def c1_doc_bogus : Yaml := .map
  [("allowed_outdate", .s "1 day"),
   ("mirrors_dir", .s "mirrors"),
   ("versions", .arr [.s "9"]),
   ("duplicated_versions", .map []),
   ("arches", .arr [.s "x86_64"]),
   ("required_protocols", .arr [.s "https"]),
   ("repos", .arr [.map
      [("name", .s "baseos"),
       ("path", .s "$basearch/baseos"),
       ("versions", .arr [.s "x86_64"])]])]

def mirror_doc_example : Yaml := .map
  [("name", .s "m1.example.org"),
   ("update_frequency", .s "12h"),
   ("sponsor", .s "Example Org"),
   ("sponsor_url", .s "https://example.org"),
   ("address", .map [("https", .s "https://m1.example.org")])]

/-! ## The availability prober (utils.py lines 282-364)

The aiohttp session is embedded as an oracle from request URL to the outcome
of the GET: an HTTP status code, a `ClientError`, or an
`asyncio.TimeoutError` (the two exception classes caught at line 348).
Besides the `(name, available)` return value the embedded probe also yields
the list of URLs it requested, in request order, so that the theorems can
speak about which network requests are issued. A probe that would die with
an uncaught `IndexError` (`arches[0]` on an empty effective arch list, line
327) yields `none` in place of a verdict. -/

/-- Outcome of one GET request, as observed by `mirror_available`. -/
inductive HttpResult where
  | status : Nat → HttpResult
  | clientError : HttpResult
  | timeoutError : HttpResult
deriving DecidableEq, Repr

/-- Python `xs or ys` on lists: `ys` when `xs` is empty (falsy), else `xs`
(utils.py line 326). -/
def py_or (xs ys : List String) : List String :=
  if xs.isEmpty then ys else xs

/-- Python `str.replace(pattern, replacement)`: replace every
non-overlapping occurrence, scanning left to right (utils.py line 327).
The fuel argument makes the recursion structural; fuel equal to the length
of the remaining text never runs out, because each step consumes at least
one character (a match consumes the pattern, which is non-empty whenever
the match condition can hold on a non-empty text). -/
def replace_go (pat rep : List Char) : Nat → List Char → List Char
  | _, [] => []
  | 0, s => s
  | fuel+1, c :: rest =>
    if pat.isPrefixOf (c :: rest) then
      rep ++ replace_go pat rep fuel ((c :: rest).drop pat.length)
    else c :: replace_go pat rep fuel rest

/-- Python `s.replace(pattern, replacement)` lifted to `String`. -/
def py_replace (s pattern replacement : String) : String :=
  ⟨replace_go pattern.data replacement.data s.data.length s.data⟩

/-- `os.path.join` with the POSIX separator (utils.py lines 328-333): each
further component replaces everything before it when absolute, otherwise it
is appended with exactly one separator. -/
def os_path_join (path : String) (paths : List String) : String :=
  paths.foldl (fun acc b =>
    if ['/'].isPrefixOf b.data then b
    else if acc.data = [] ∨ ['/'].isSuffixOf acc.data then ⟨acc.data ++ b.data⟩
    else ⟨acc.data ++ '/' :: b.data⟩) path

/-- utils.py lines 324-359: the two nested `for` loops of
`mirror_available`, iterated over the flattened version × repo cross
product in loop order (outer loop `versions`, inner loop `repos`). The
`arches` argument is the function-level `arches` variable, which line 326
rebinds on every iteration; the recursion threads it exactly as the Python
loop does. Result: `(some verdict, urls)` with `urls` the requested URLs in
order, or `(none, urls)` when line 327 raises IndexError on an empty
effective arch list. -/
def check_pairs (http_session : String → HttpResult) (mirror_url : String) :
    List (String × RepoData) → List String → Option Bool × List String
  | [], _ => (some true, [])
  | (version, repo_data) :: rest, arches =>
    match py_or repo_data.arches arches with
    | [] => (none, [])
    | arch0 :: arch_rest =>
      let repo_path := py_replace repo_data.path "$basearch" arch0
      let check_url :=
        os_path_join mirror_url [version, repo_path, "repodata/repomd.xml"]
      match http_session check_url with
      | .status code =>
        if code ≠ 200 then (some false, [check_url])
        else
          let r := check_pairs http_session mirror_url rest (arch0 :: arch_rest)
          (r.1, check_url :: r.2)
      | .clientError => (some false, [check_url])
      | .timeoutError => (some false, [check_url])

/-- The version × repo cross product in the loop order of utils.py lines
324-325: `versions` outer, `repos` inner. -/
def cross_pairs (versions : List String) (repos : List RepoData) :
    List (String × RepoData) :=
  versions.flatMap (fun version => repos.map (fun repo_data => (version, repo_data)))

/-- utils.py lines 282-364 (`mirror_available`): private exemption, protocol
selection by `next(...)` over `mirror_info.urls.items()`, then the check
loop. Returns the `(name, available)` verdict (`none` on an uncaught
IndexError) together with the list of requested URLs in order. -/
def mirror_available (mirror_info : MirrorData) (versions : List String)
    (repos : List RepoData) (http_session : String → HttpResult)
    (arches : List String) (required_protocols : List String) :
    Option (String × Bool) × List String :=
  let mirror_name := mirror_info.name
  if mirror_info.«private» then (some (mirror_name, true), [])
  else
    match mirror_info.urls.find? (fun p => required_protocols.contains p.1) with
    | none => (some (mirror_name, false), [])
    | some sel =>
      let mirror_url := sel.2
      let r := check_pairs http_session mirror_url
        (cross_pairs versions repos) arches
      (r.1.map (fun available => (mirror_name, available)), r.2)

/-! ## Spec-side descriptions of the probe loop -/

/-- A single check passes iff the response carries status 200; a non-200
status, a transport error and a timeout all fail it. -/
def check_passes : HttpResult → Bool
  | .status code => code == 200
  | .clientError => false
  | .timeoutError => false

/-- The check URL of one (version, repo) pair, given the effective arch
list in force at that iteration. -/
def pair_url (mirror_url version : String) (repo_data : RepoData)
    (arches : List String) : String :=
  os_path_join mirror_url
    [version, py_replace repo_data.path "$basearch" (arches.headD ""),
     "repodata/repomd.xml"]

/-- The sequence of URLs the probe loop would request if no check failed,
threading the rebound default arch list exactly as utils.py line 326 does.
This sequence depends only on the inputs, not on the network. -/
def planned_checks (mirror_url : String) :
    List (String × RepoData) → List String → List String
  | [], _ => []
  | (version, repo_data) :: rest, arches =>
    pair_url mirror_url version repo_data (py_or repo_data.arches arches) ::
      planned_checks mirror_url rest (py_or repo_data.arches arches)

/-- True iff no iteration of the loop evaluates `arches[0]` on an empty
effective arch list. -/
def no_index_error : List (String × RepoData) → List String → Bool
  | [], _ => true
  | (_, repo_data) :: rest, arches =>
    !(py_or repo_data.arches arches).isEmpty &&
      no_index_error rest (py_or repo_data.arches arches)

/-- Characterization of the probe loop: when no iteration hits an empty
effective arch list, the loop verdict is the conjunction of all planned
checks and the requested URLs are the planned sequence cut off right after
the first failing check (the whole sequence when none fails). -/
theorem check_pairs_eq (http_session : String → HttpResult) (mirror_url : String) :
    ∀ (pairs : List (String × RepoData)) (arches : List String),
      no_index_error pairs arches = true →
      check_pairs http_session mirror_url pairs arches =
        (some ((planned_checks mirror_url pairs arches).all
                (fun u => check_passes (http_session u))),
         (planned_checks mirror_url pairs arches).take
           ((planned_checks mirror_url pairs arches).findIdx
              (fun u => !(check_passes (http_session u))) + 1))
  | [], arches, _ => by
    simp [check_pairs, planned_checks]
  | (version, repo_data) :: rest, arches, h => by
    simp only [no_index_error, Bool.and_eq_true] at h
    obtain ⟨h1, h2⟩ := h
    cases he : py_or repo_data.arches arches with
    | nil => rw [he] at h1; simp at h1
    | cons arch0 arch_rest =>
      rw [he] at h2
      have IH := check_pairs_eq http_session mirror_url rest (arch0 :: arch_rest) h2
      simp only [check_pairs, planned_checks, he, pair_url, List.headD_cons]
      cases hr : http_session (os_path_join mirror_url
          [version, py_replace repo_data.path "$basearch" arch0,
           "repodata/repomd.xml"]) with
      | status code =>
        by_cases hc : code = 200
        · subst hc
          simp [hr, IH, check_passes, List.findIdx_cons]
        · have hb : (code == 200) = false := by simp [hc]
          simp [hr, hc, hb, check_passes, List.findIdx_cons]
      | clientError => simp [hr, check_passes, List.findIdx_cons]
      | timeoutError => simp [hr, check_passes, List.findIdx_cons]

/-- When every element satisfies `p`, cutting a list right after the first
element failing `p` keeps the whole list. -/
theorem all_take_findIdx {α : Type} (p : α → Bool) :
    ∀ l : List α, l.all p = true →
      l.take (l.findIdx (fun u => !(p u)) + 1) = l
  | [], _ => by simp
  | a :: l, h => by
    simp only [List.all_cons, Bool.and_eq_true] at h
    simp [List.findIdx_cons, h.1, List.take_succ_cons, all_take_findIdx p l h.2]

/-- Every planned URL is the join of the base URL, a version, an
arch-substituted repo path and the fixed suffix, for some pair of the
iteration. -/
theorem planned_checks_mem (mirror_url : String) :
    ∀ (pairs : List (String × RepoData)) (arches : List String)
      (u : String), u ∈ planned_checks mirror_url pairs arches →
      ∃ version repo_data arch, (version, repo_data) ∈ pairs ∧
        u = os_path_join mirror_url
          [version, py_replace repo_data.path "$basearch" arch,
           "repodata/repomd.xml"]
  | [], _, _, hu => by simp [planned_checks] at hu
  | (version, repo_data) :: rest, arches, u, hu => by
    simp only [planned_checks, List.mem_cons] at hu
    rcases hu with hu | hu
    · exact ⟨version, repo_data, (py_or repo_data.arches arches).headD "",
        by simp, by simpa [pair_url] using hu⟩
    · obtain ⟨v, r, a, hmem, hequ⟩ :=
        planned_checks_mem mirror_url rest (py_or repo_data.arches arches) u hu
      exact ⟨v, r, a, by simp [hmem], hequ⟩

/-- The k-th planned URL substitutes the head of the arch list obtained by
folding the rebinding of utils.py line 326 over the first k+1 pairs. -/
theorem planned_checks_getElem? (mirror_url : String) :
    ∀ (pairs : List (String × RepoData)) (arches : List String) (k : Nat)
      (version : String) (repo_data : RepoData),
      pairs[k]? = some (version, repo_data) →
      (planned_checks mirror_url pairs arches)[k]? =
        some (os_path_join mirror_url
          [version,
           py_replace repo_data.path "$basearch"
             (((pairs.take (k+1)).foldl
                (fun acc pr => py_or pr.2.arches acc) arches).headD ""),
           "repodata/repomd.xml"])
  | [], _, k, _, _, hk => by simp at hk
  | (v0, r0) :: rest, arches, 0, version, repo_data, hk => by
    simp only [List.getElem?_cons_zero, Option.some_inj, Prod.mk.injEq] at hk
    obtain ⟨hv, hr⟩ := hk
    subst hv; subst hr
    simp [planned_checks, pair_url]
  | (v0, r0) :: rest, arches, k+1, version, repo_data, hk => by
    simp only [List.getElem?_cons_succ] at hk
    have IH := planned_checks_getElem? mirror_url rest
      (py_or r0.arches arches) k version repo_data hk
    simpa [planned_checks, List.take_succ_cons] using IH

/-- Modelled from the spec: scan the url mapping in the iteration order of
its keys and select the address of the first key appearing in
`required_protocols`; `none` when no key matches. -/
def scan_first_acceptable : List (String × String) → List String → Option String
  | [], _ => none
  | (protocol_type, address) :: rest, required_protocols =>
    if required_protocols.contains protocol_type then some address
    else scan_first_acceptable rest required_protocols

/-- The `next(...)` selection of utils.py lines 313-316 computes the
spec-described first-matching-key scan. -/
theorem find?_eq_scan_first_acceptable (required_protocols : List String) :
    ∀ urls : List (String × String),
      (urls.find? (fun p => required_protocols.contains p.1)).map Prod.snd =
        scan_first_acceptable urls required_protocols
  | [] => by simp [scan_first_acceptable]
  | (protocol_type, address) :: rest => by
    by_cases hp : protocol_type ∈ required_protocols
    · simp [List.find?_cons, hp, scan_first_acceptable]
    · simpa [List.find?_cons, hp, scan_first_acceptable] using
        find?_eq_scan_first_acceptable required_protocols rest

/-- Unfolding of `mirror_available` for a non-private mirror whose protocol
selection succeeds. -/
theorem mirror_available_selected (mirror_info : MirrorData)
    (versions : List String) (repos : List RepoData)
    (http_session : String → HttpResult) (arches : List String)
    (required_protocols : List String) (t addr : String)
    (hpriv : mirror_info.«private» = false)
    (hsel : mirror_info.urls.find?
      (fun p => required_protocols.contains p.1) = some (t, addr)) :
    mirror_available mirror_info versions repos http_session arches
        required_protocols =
      ((check_pairs http_session addr (cross_pairs versions repos) arches).1.map
         (fun available => (mirror_info.name, available)),
       (check_pairs http_session addr (cross_pairs versions repos) arches).2) := by
  have hsel2 : mirror_info.urls.find?
      (fun p => decide (p.1 ∈ required_protocols)) = some (t, addr) := by
    simpa using hsel
  simp [mirror_available, hpriv, hsel2]

/-- Replace a timeout outcome by a transport-error outcome, leaving every
other outcome unchanged. -/
def collapse_timeout : HttpResult → HttpResult
  | .timeoutError => .clientError
  | r => r

/-- Replace every failing outcome (non-200 status, transport error,
timeout) by a plain 404 status, leaving a 200 status unchanged. -/
def collapse_failure : HttpResult → HttpResult
  | .status 200 => .status 200
  | _ => .status 404

/-- The probe loop cannot tell a timeout from a transport error. -/
theorem check_pairs_collapse_timeout (http_session : String → HttpResult)
    (mirror_url : String) :
    ∀ (pairs : List (String × RepoData)) (arches : List String),
      check_pairs (fun u => collapse_timeout (http_session u)) mirror_url
          pairs arches =
        check_pairs http_session mirror_url pairs arches
  | [], _ => rfl
  | (version, repo_data) :: rest, arches => by
    cases he : py_or repo_data.arches arches with
    | nil => simp [check_pairs, he]
    | cons arch0 arch_rest =>
      have IH := check_pairs_collapse_timeout http_session mirror_url rest
        (arch0 :: arch_rest)
      simp only [check_pairs, he]
      cases hr : http_session (os_path_join mirror_url
          [version, py_replace repo_data.path "$basearch" arch0,
           "repodata/repomd.xml"]) with
      | status code =>
        have hct : collapse_timeout (HttpResult.status code) =
            HttpResult.status code := rfl
        simp [hr, hct, IH]
      | clientError =>
        have hct : collapse_timeout HttpResult.clientError =
            HttpResult.clientError := rfl
        simp [hr, hct]
      | timeoutError =>
        have hct : collapse_timeout HttpResult.timeoutError =
            HttpResult.clientError := rfl
        simp [hr, hct]

/-- The probe loop cannot tell any failing outcome from a plain 404. -/
theorem check_pairs_collapse_failure (http_session : String → HttpResult)
    (mirror_url : String) :
    ∀ (pairs : List (String × RepoData)) (arches : List String),
      check_pairs (fun u => collapse_failure (http_session u)) mirror_url
          pairs arches =
        check_pairs http_session mirror_url pairs arches
  | [], _ => rfl
  | (version, repo_data) :: rest, arches => by
    cases he : py_or repo_data.arches arches with
    | nil => simp [check_pairs, he]
    | cons arch0 arch_rest =>
      have IH := check_pairs_collapse_failure http_session mirror_url rest
        (arch0 :: arch_rest)
      simp only [check_pairs, he]
      cases hr : http_session (os_path_join mirror_url
          [version, py_replace repo_data.path "$basearch" arch0,
           "repodata/repomd.xml"]) with
      | status code =>
        by_cases hc : code = 200
        · subst hc
          have hcf : collapse_failure (HttpResult.status 200) =
              HttpResult.status 200 := rfl
          simp [hr, hcf, IH]
        · have hcf : collapse_failure (HttpResult.status code) =
              HttpResult.status 404 := by
            unfold collapse_failure
            split
            · next heq =>
              injection heq with h
              exact absurd h hc
            · rfl
          simp [hr, hcf, hc]
      | clientError =>
        have hcf : collapse_failure HttpResult.clientError =
            HttpResult.status 404 := rfl
        simp [hr, hcf]
      | timeoutError =>
        have hcf : collapse_failure HttpResult.timeoutError =
            HttpResult.status 404 := rfl
        simp [hr, hcf]

/-- Two network oracles with pointwise-equal check loops give the same
probe outcome on every mirror. -/
theorem mirror_available_congr_http (mirror_info : MirrorData)
    (versions : List String) (repos : List RepoData)
    (http1 http2 : String → HttpResult) (arches : List String)
    (required_protocols : List String)
    (h : ∀ (mirror_url : String) (pairs : List (String × RepoData))
      (archs : List String),
      check_pairs http1 mirror_url pairs archs =
        check_pairs http2 mirror_url pairs archs) :
    mirror_available mirror_info versions repos http1 arches
        required_protocols =
      mirror_available mirror_info versions repos http2 arches
        required_protocols := by
  unfold mirror_available
  cases hp : mirror_info.«private» with
  | true => simp
  | false =>
    simp only [Bool.false_eq_true, if_false]
    cases hf : mirror_info.urls.find?
        (fun p => required_protocols.contains p.1) with
    | none => simp [hf]
    | some sel => simp [hf, h]

/-- The version × repo cross product is empty when either list is. -/
theorem cross_pairs_eq_nil (versions : List String) (repos : List RepoData)
    (h : versions = [] ∨ repos = []) :
    cross_pairs versions repos = [] := by
  rcases h with h | h <;> subst h <;> simp [cross_pairs]

/-! ## Concrete inputs used by the counterexamples and witnesses -/

/-- A network oracle answering 200 to every request. -/
def http_all_200 : String → HttpResult := fun _ => .status 200

/-- A network oracle answering 404 to the appstream check of the example
scenario and 200 to everything else. -/
def http_fail_appstream : String → HttpResult := fun u =>
  if u = "https://example.com/9/x86_64/appstream/repodata/repomd.xml" then
    .status 404
  else .status 200

/-- The non-private example mirror of the spec scenario, reachable over
https at example.com. -/
def example_mirror : MirrorData :=
  { name := "example", update_frequency := "12h",
    sponsor_name := "Example Org", sponsor_url := "https://example.org",
    email := "unknown", urls := [("https", "https://example.com")],
    subnets := [], asn := none, cloud_type := "", cloud_region := "",
    «private» := false }

/-- A private mirror. -/
def private_mirror : MirrorData :=
  { name := "private.example", update_frequency := "12h",
    sponsor_name := "Example Org", sponsor_url := "https://example.org",
    email := "unknown", urls := [("https", "https://private.example")],
    subnets := [], asn := none, cloud_type := "", cloud_region := "",
    «private» := true }

/-- A mirror reachable only over ftp. -/
def ftp_only_mirror : MirrorData :=
  { name := "ftponly.example", update_frequency := "12h",
    sponsor_name := "Example Org", sponsor_url := "https://example.org",
    email := "unknown", urls := [("ftp", "ftp://ftponly.example")],
    subnets := [], asn := none, cloud_type := "", cloud_region := "",
    «private» := false }

/-- The baseos repo of the spec scenario: templated path, no own arches. -/
def baseos_repo : RepoData :=
  { name := "baseos", path := "$basearch/baseos", arches := [],
    versions := [] }

/-- An appstream repo with no own arches. -/
def appstream_repo : RepoData :=
  { name := "appstream", path := "$basearch/appstream", arches := [],
    versions := [] }

/-- A baseos repo declaring its own single arch aarch64. -/
def aarch_baseos_repo : RepoData :=
  { name := "baseos", path := "$basearch/baseos", arches := ["aarch64"],
    versions := [] }

/-! ## Claims -/

/-- C1: the claim that each accepted RepoDescriptor has its versions inside
the global versions list, and that violations are rejected, fails on the
code: utils.py line 125 validates repo versions against the global arches
list. A manifest whose repo version list equals the global versions list is
rejected with a ValidationError naming the arches, while a manifest whose
repo version is an arch name absent from the global versions list is
accepted. -/
theorem c1_repo_versions_validated_against_arches :
    process_main_config c1_doc_valid =
      .ok (none, some ("Attr \"9\" of repo \"baseos\" is absent in the " ++
        "main list of attrs \"x86_64\"")) ∧
    ∃ cfg, process_main_config c1_doc_bogus = .ok (some cfg, none) ∧
      cfg.versions = ["9"] ∧ cfg.repos.map RepoData.versions = [["x86_64"]] ∧
      ¬ ("x86_64" ∈ cfg.versions) := by
  constructor
  · rfl
  · exact ⟨_, rfl, rfl, rfl, by decide⟩

/-- C2: the claim that discovery builds a MirrorData per schema-valid file
and skips failing files non-fatally fails on the code: utils.py line 248
runs `process_main_config` (the main-manifest pipeline) on the mirror
document, so a schema-valid mirror descriptor raises an uncaught
KeyError on the missing main-config key `allowed_outdate`, and the error
aborts the whole `get_mirrors_info` traversal instead of skipping the
file. -/
theorem c2_discovery_runs_main_pipeline_and_aborts :
    get_mirror_config accept_all_validation mirror_doc_example =
      .error (.keyError "allowed_outdate") ∧
    get_mirrors_info accept_all_validation [c1_doc_bogus, mirror_doc_example] =
      .error (.keyError "allowed_outdate") :=
  ⟨by rfl, by rfl⟩

/-- C3 counterexample: with a first repo declaring arches ["aarch64"] and a
second repo with empty arches, under caller default ["x86_64"], the second
check substitutes "aarch64" (the rebound default from the previous repo),
not the first element of the caller-supplied default. -/
theorem c3_counterexample_default_rebound :
    (mirror_available example_mirror ["9"] [aarch_baseos_repo, appstream_repo]
        http_all_200 ["x86_64"] ["https"]).2[1]? =
      some "https://example.com/9/aarch64/appstream/repodata/repomd.xml" ∧
    (mirror_available example_mirror ["9"] [aarch_baseos_repo, appstream_repo]
        http_all_200 ["x86_64"] ["https"]).2[1]? ≠
      some (os_path_join "https://example.com"
        ["9", py_replace appstream_repo.path "$basearch" (["x86_64"].headD ""),
         "repodata/repomd.xml"]) := by
  constructor
  · rfl
  · decide

/-- C3 (amended): the architecture substituted into `repo.path` at the k-th
performed check is the head of the arch list obtained by folding the
rebinding `arches = repo_data.arches or arches` over the first k+1 pairs of
the cross product: `repo.arches` when non-empty, otherwise the current
default, which starts as the caller-supplied `arches` but is replaced by
the arches of every preceding repo that declared a non-empty list. -/
theorem c3_arch_substitution_threads_default (mirror_info : MirrorData)
    (versions : List String) (repos : List RepoData)
    (http_session : String → HttpResult) (arches : List String)
    (required_protocols : List String) (t addr : String) (k : Nat)
    (version : String) (repo_data : RepoData)
    (hpriv : mirror_info.«private» = false)
    (hsel : mirror_info.urls.find?
      (fun p => required_protocols.contains p.1) = some (t, addr))
    (hok : no_index_error (cross_pairs versions repos) arches = true)
    (hall : (planned_checks addr (cross_pairs versions repos) arches).all
      (fun u => check_passes (http_session u)) = true)
    (hk : (cross_pairs versions repos)[k]? = some (version, repo_data)) :
    (mirror_available mirror_info versions repos http_session arches
        required_protocols).2[k]? =
      some (os_path_join addr
        [version,
         py_replace repo_data.path "$basearch"
           ((((cross_pairs versions repos).take (k+1)).foldl
              (fun acc pr => py_or pr.2.arches acc) arches).headD ""),
         "repodata/repomd.xml"]) := by
  rw [mirror_available_selected mirror_info versions repos http_session
      arches required_protocols t addr hpriv hsel,
    check_pairs_eq http_session addr (cross_pairs versions repos) arches hok]
  simp only
  rw [all_take_findIdx (fun u => check_passes (http_session u))
    (planned_checks addr (cross_pairs versions repos) arches) hall]
  exact planned_checks_getElem? addr (cross_pairs versions repos) arches k
    version repo_data hk

/-- C3 witness: in the two-repo scenario all of whose checks pass, the
second requested URL is the one predicted by the folded (rebound) default
arch list. -/
theorem c3_arch_substitution_threads_default_witness :
    (mirror_available example_mirror ["9"] [aarch_baseos_repo, appstream_repo]
        http_all_200 ["x86_64"] ["https"]).2[1]? =
      some (os_path_join "https://example.com"
        ["9",
         py_replace appstream_repo.path "$basearch"
           ((((cross_pairs ["9"] [aarch_baseos_repo, appstream_repo]).take 2).foldl
              (fun acc pr => py_or pr.2.arches acc) ["x86_64"]).headD ""),
         "repodata/repomd.xml"]) :=
  c3_arch_substitution_threads_default example_mirror ["9"]
    [aarch_baseos_repo, appstream_repo] http_all_200 ["x86_64"] ["https"]
    "https" "https://example.com" 1 "9" appstream_repo rfl rfl (by decide)
    (by decide) (by decide)

/-- C4: for a non-private mirror with a selected protocol and no empty
effective arch list, the probe verdict is the conjunction of all checks of
the version × repo cross product in declared order, and the requested URLs
are exactly the planned sequence cut off right after the first failing
check — the whole sequence exactly when every check passes. -/
theorem c4_probe_short_circuit_and (mirror_info : MirrorData)
    (versions : List String) (repos : List RepoData)
    (http_session : String → HttpResult) (arches : List String)
    (required_protocols : List String) (t addr : String)
    (hpriv : mirror_info.«private» = false)
    (hsel : mirror_info.urls.find?
      (fun p => required_protocols.contains p.1) = some (t, addr))
    (hok : no_index_error (cross_pairs versions repos) arches = true) :
    mirror_available mirror_info versions repos http_session arches
        required_protocols =
      (some (mirror_info.name,
         (planned_checks addr (cross_pairs versions repos) arches).all
           (fun u => check_passes (http_session u))),
       (planned_checks addr (cross_pairs versions repos) arches).take
         ((planned_checks addr (cross_pairs versions repos) arches).findIdx
            (fun u => !(check_passes (http_session u))) + 1)) := by
  rw [mirror_available_selected mirror_info versions repos http_session
      arches required_protocols t addr hpriv hsel,
    check_pairs_eq http_session addr (cross_pairs versions repos) arches hok]
  rfl

/-- C4 witness: one version, two repos, the second check answered 404; the
verdict is false and the request log stops exactly at the failing check. -/
theorem c4_probe_short_circuit_and_witness :
    mirror_available example_mirror ["9"] [baseos_repo, appstream_repo]
        http_fail_appstream ["x86_64"] ["https"] =
      (some ("example",
         (planned_checks "https://example.com"
             (cross_pairs ["9"] [baseos_repo, appstream_repo]) ["x86_64"]).all
           (fun u => check_passes (http_fail_appstream u))),
       (planned_checks "https://example.com"
           (cross_pairs ["9"] [baseos_repo, appstream_repo]) ["x86_64"]).take
         ((planned_checks "https://example.com"
             (cross_pairs ["9"] [baseos_repo, appstream_repo]) ["x86_64"]).findIdx
            (fun u => !(check_passes (http_fail_appstream u))) + 1)) :=
  c4_probe_short_circuit_and example_mirror ["9"] [baseos_repo, appstream_repo]
    http_fail_appstream ["x86_64"] ["https"] "https" "https://example.com"
    rfl rfl (by decide)

/-- C5: a private mirror is reported (name, true) without any network
request, whatever its urls, the required protocols, or the versions and
repos to check. -/
theorem c5_private_mirror_exempt (mirror_info : MirrorData)
    (versions : List String) (repos : List RepoData)
    (http_session : String → HttpResult) (arches : List String)
    (required_protocols : List String)
    (hpriv : mirror_info.«private» = true) :
    mirror_available mirror_info versions repos http_session arches
        required_protocols = (some (mirror_info.name, true), []) := by
  simp [mirror_available, hpriv]

/-- C5 witness: the concrete private mirror is reported available with an
empty request log. -/
theorem c5_private_mirror_exempt_witness :
    mirror_available private_mirror ["9"] [baseos_repo] http_all_200
        ["x86_64"] ["https"] = (some ("private.example", true), []) :=
  c5_private_mirror_exempt private_mirror ["9"] [baseos_repo] http_all_200
    ["x86_64"] ["https"] rfl

/-- C6: for a non-private mirror, the base URL selection of utils.py lines
313-316 is the first-matching-key scan of `mirror.urls` in iteration order
against `required_protocols`, and when no key matches the probe returns
(name, false) with an empty request log. -/
theorem c6_protocol_selection_first_match (mirror_info : MirrorData)
    (versions : List String) (repos : List RepoData)
    (http_session : String → HttpResult) (arches : List String)
    (required_protocols : List String)
    (hpriv : mirror_info.«private» = false) :
    ((mirror_info.urls.find?
        (fun p => required_protocols.contains p.1)).map Prod.snd =
      scan_first_acceptable mirror_info.urls required_protocols) ∧
    (scan_first_acceptable mirror_info.urls required_protocols = none →
      mirror_available mirror_info versions repos http_session arches
          required_protocols = (some (mirror_info.name, false), [])) := by
  refine ⟨find?_eq_scan_first_acceptable required_protocols mirror_info.urls,
    fun hnone => ?_⟩
  have hfind : mirror_info.urls.find?
      (fun p => decide (p.1 ∈ required_protocols)) = none := by
    have h := find?_eq_scan_first_acceptable required_protocols mirror_info.urls
    rw [hnone] at h
    simpa using Option.map_eq_none'.mp h
  simp [mirror_available, hpriv, hfind]

/-- C6 witness: the ftp-only mirror has no acceptable protocol for
required_protocols = ["https"] and is reported (name, false) with no
requests. -/
theorem c6_protocol_selection_first_match_witness :
    mirror_available ftp_only_mirror ["9"] [baseos_repo] http_all_200
        ["x86_64"] ["https"] = (some ("ftponly.example", false), []) :=
  (c6_protocol_selection_first_match ftp_only_mirror ["9"] [baseos_repo]
    http_all_200 ["x86_64"] ["https"] rfl).2 rfl

/-- C7: in the concrete spec scenario the single check URL is
https://example.com/9/x86_64/baseos/repodata/repomd.xml and the probe
answers (example, true); in general every requested URL is the join of the
selected base URL, a version of the cross product, the arch-substituted
repo path and the fixed suffix repodata/repomd.xml. -/
theorem c7_check_url_composition :
    (mirror_available example_mirror ["9"] [baseos_repo] http_all_200
        ["x86_64"] ["https"] =
      (some ("example", true),
       ["https://example.com/9/x86_64/baseos/repodata/repomd.xml"])) ∧
    (∀ (mirror_info : MirrorData) (versions : List String)
      (repos : List RepoData) (http_session : String → HttpResult)
      (arches : List String) (required_protocols : List String)
      (t addr : String),
      mirror_info.«private» = false →
      mirror_info.urls.find?
        (fun p => required_protocols.contains p.1) = some (t, addr) →
      no_index_error (cross_pairs versions repos) arches = true →
      ∀ u ∈ (mirror_available mirror_info versions repos http_session arches
          required_protocols).2,
        ∃ version repo_data arch,
          (version, repo_data) ∈ cross_pairs versions repos ∧
          u = os_path_join addr
            [version, py_replace repo_data.path "$basearch" arch,
             "repodata/repomd.xml"]) := by
  constructor
  · rfl
  · intro mirror_info versions repos http_session arches required_protocols
      t addr hpriv hsel hok u hu
    rw [mirror_available_selected mirror_info versions repos http_session
        arches required_protocols t addr hpriv hsel,
      check_pairs_eq http_session addr (cross_pairs versions repos) arches
        hok] at hu
    exact planned_checks_mem addr (cross_pairs versions repos) arches u
      (List.take_subset _ _ hu)

/-- C7 witness: the URL requested in the concrete scenario decomposes as
base / version / arch-substituted path / repodata/repomd.xml. -/
theorem c7_check_url_composition_witness :
    ∃ version repo_data arch,
      (version, repo_data) ∈ cross_pairs ["9"] [baseos_repo] ∧
      "https://example.com/9/x86_64/baseos/repodata/repomd.xml" =
        os_path_join "https://example.com"
          [version, py_replace repo_data.path "$basearch" arch,
           "repodata/repomd.xml"] :=
  (c7_check_url_composition).2 example_mirror ["9"] [baseos_repo]
    http_all_200 ["x86_64"] ["https"] "https" "https://example.com" rfl rfl
    (by decide) "https://example.com/9/x86_64/baseos/repodata/repomd.xml"
    (by decide)

/-- C8: the probe result is unchanged when every timeout outcome of the
network oracle is replaced by a transport error, and unchanged when every
failing outcome (non-200 status, transport error, timeout) is replaced by a
plain 404 status: the boolean verdict never distinguishes the kind of
failure. -/
theorem c8_timeout_equals_transport_error (mirror_info : MirrorData)
    (versions : List String) (repos : List RepoData)
    (http_session : String → HttpResult) (arches : List String)
    (required_protocols : List String) :
    mirror_available mirror_info versions repos
        (fun u => collapse_timeout (http_session u)) arches
        required_protocols =
      mirror_available mirror_info versions repos http_session arches
        required_protocols ∧
    mirror_available mirror_info versions repos
        (fun u => collapse_failure (http_session u)) arches
        required_protocols =
      mirror_available mirror_info versions repos http_session arches
        required_protocols :=
  ⟨mirror_available_congr_http mirror_info versions repos
      (fun u => collapse_timeout (http_session u)) http_session arches
      required_protocols
      (fun mirror_url pairs archs =>
        check_pairs_collapse_timeout http_session mirror_url pairs archs),
   mirror_available_congr_http mirror_info versions repos
      (fun u => collapse_failure (http_session u)) http_session arches
      required_protocols
      (fun mirror_url pairs archs =>
        check_pairs_collapse_failure http_session mirror_url pairs archs)⟩

/-- C9: for a non-private mirror with a selected protocol, an empty
versions list or an empty repos list makes the probe return (name, true)
with no network request: the conjunction over the empty cross product holds
vacuously. -/
theorem c9_empty_cross_product_vacuous_true (mirror_info : MirrorData)
    (versions : List String) (repos : List RepoData)
    (http_session : String → HttpResult) (arches : List String)
    (required_protocols : List String) (t addr : String)
    (hpriv : mirror_info.«private» = false)
    (hsel : mirror_info.urls.find?
      (fun p => required_protocols.contains p.1) = some (t, addr))
    (hempty : versions = [] ∨ repos = []) :
    mirror_available mirror_info versions repos http_session arches
        required_protocols = (some (mirror_info.name, true), []) := by
  rw [mirror_available_selected mirror_info versions repos http_session
      arches required_protocols t addr hpriv hsel,
    cross_pairs_eq_nil versions repos hempty]
  rfl

/-- C9 witness: the example mirror with no repos to check is reported
available with an empty request log. -/
theorem c9_empty_cross_product_vacuous_true_witness :
    mirror_available example_mirror ["9"] [] http_all_200 ["x86_64"]
        ["https"] = (some ("example", true), []) :=
  c9_empty_cross_product_vacuous_true example_mirror ["9"] [] http_all_200
    ["x86_64"] ["https"] "https" "https://example.com" rfl rfl (Or.inr rfl)

/-- C10: for a non-private mirror with a selected protocol, the probe
returns a verdict whenever no iteration reaches an empty effective arch
list, and when a reached repo has empty arches while the current default
list is empty the probe yields no verdict at all (the IndexError of
utils.py line 327). -/
theorem c10_probe_total_iff_effective_arches_nonempty
    (mirror_info : MirrorData) (http_session : String → HttpResult)
    (required_protocols : List String) (t addr : String)
    (hpriv : mirror_info.«private» = false)
    (hsel : mirror_info.urls.find?
      (fun p => required_protocols.contains p.1) = some (t, addr)) :
    (∀ (versions : List String) (repos : List RepoData)
      (arches : List String),
      no_index_error (cross_pairs versions repos) arches = true →
      ∃ available,
        (mirror_available mirror_info versions repos http_session arches
          required_protocols).1 = some (mirror_info.name, available)) ∧
    (∀ (version : String) (repo_data : RepoData), repo_data.arches = [] →
      (mirror_available mirror_info [version] [repo_data] http_session []
        required_protocols).1 = none) := by
  constructor
  · intro versions repos arches hok
    rw [mirror_available_selected mirror_info versions repos http_session
        arches required_protocols t addr hpriv hsel,
      check_pairs_eq http_session addr (cross_pairs versions repos) arches
        hok]
    exact ⟨_, rfl⟩
  · intro version repo_data hre
    rw [mirror_available_selected mirror_info [version] [repo_data]
        http_session [] required_protocols t addr hpriv hsel]
    simp [cross_pairs, check_pairs, py_or, hre]

/-- C10 witness: the example mirror returns a verdict under the non-empty
default arch list, and no verdict when both the repo arches and the default
list are empty. -/
theorem c10_probe_total_iff_effective_arches_nonempty_witness :
    (∃ available,
      (mirror_available example_mirror ["9"] [baseos_repo] http_all_200
        ["x86_64"] ["https"]).1 = some ("example", available)) ∧
    (mirror_available example_mirror ["9"] [baseos_repo] http_all_200 []
        ["https"]).1 = none := by
  have h := c10_probe_total_iff_effective_arches_nonempty example_mirror
    http_all_200 ["https"] "https" "https://example.com" rfl rfl
  exact ⟨h.1 ["9"] [baseos_repo] ["x86_64"] (by decide),
    h.2 "9" baseos_repo rfl⟩

end MirrorsService
